import Mathlib

/-
Verification of the tauri-app repository (src-tauri/src/main.rs and
src-tauri/src/lynx_integration.rs) against its specification.

The program is glue code over two external libraries (the tauri GUI
framework and the Lynx library).  We embed it as a trace semantics:
every call into an external library is recorded as an `Event`, and the
environment supplies the data those calls would return — the window map
of the application handle (`App.windows`) and the outcome of the
framework's event loop (`loopError`).  Panics are modelled explicitly
as outcomes carrying the panic message.
-/

namespace TauriApp

/-- A GUI window handle (tauri::Window), identified opaquely. -/
structure Window where
  id : Nat
  deriving DecidableEq

/-- Observable calls into the external libraries, in program order. -/
inductive Event where
  | builderDefault : Event
  | setupRegistered : Event
  | getWindow : String → Option Window → Event
  | lynxNew : Nat → Event
  | lynxRun : Nat → Window → Event
  | eventLoopRun : Event
  deriving DecidableEq

/-- The application handle passed to the setup closure; its window map
is the environment for `get_window` lookups. -/
structure App where
  windows : String → Option Window

/-- app.get_window(name): returns the window registered under `name`
and records the lookup. -/
def App.get_window (app : App) (name : String) : Option Window × List Event :=
  (app.windows name, [Event.getWindow name (app.windows name)])

/-- An instance of the external Lynx library object; `id` identifies
the instance so the trace shows which instance each call is on. -/
structure Lynx where
  id : Nat
  deriving DecidableEq

/-- Lynx::new(): constructs a fresh Lynx instance. -/
def Lynx.new (fresh : Nat) : Lynx × List Event :=
  (⟨fresh⟩, [Event.lynxNew fresh])

/-- lynx.run(window): hands the window to the Lynx instance. -/
def Lynx.run (l : Lynx) (w : Window) : Unit × List Event :=
  ((), [Event.lynxRun l.id w])

/-- initialize_lynx from lynx_integration.rs:
`let lynx = Lynx::new(); lynx.run(window);`. -/
def initialize_lynx (fresh : Nat) (window : Window) : Unit × List Event :=
  let p := Lynx.new fresh
  let lynx := p.1
  let r := lynx.run window
  (r.1, p.2 ++ r.2)

/-- The value returned by the setup closure when it returns, mirroring
Result<(), Box<dyn Error>>. -/
inductive SetupResult where
  | ok : SetupResult
  | err : String → SetupResult
  deriving DecidableEq

/-- How an invocation of the setup closure ends: a returned value or a
panic. -/
inductive ClosureResult where
  | returned : SetupResult → ClosureResult
  | panicked : String → ClosureResult
  deriving DecidableEq

/-- The panic message of Option::unwrap on None. -/
def unwrapPanicMsg : String := "called Option.unwrap on a None value"

/-- The setup closure registered in main.rs:
`let main_window = app.get_window("main").unwrap();
 lynx_integration::initialize_lynx(&main_window);
 Ok(())`. -/
def setupClosure (fresh : Nat) (app : App) : ClosureResult × List Event :=
  let g := app.get_window "main"
  match g.1 with
  | none => (ClosureResult.panicked unwrapPanicMsg, g.2)
  | some main_window =>
      let r := initialize_lynx fresh main_window
      (ClosureResult.returned SetupResult.ok, g.2 ++ r.2)

/-- The tauri application builder: the only configuration this program
installs on it is the setup callback. -/
structure Builder where
  setupCallback : Option (App → ClosureResult × List Event)

/-- Builder::default(): a builder with no setup callback installed. -/
def Builder.default : Builder × List Event :=
  (⟨none⟩, [Event.builderDefault])

/-- builder.setup(f): registers the setup callback. -/
def Builder.setup (_b : Builder) (f : App → ClosureResult × List Event) :
    Builder × List Event :=
  (⟨some f⟩, [Event.setupRegistered])

/-- How builder.run(context) ends: Ok, Err (returned to the caller), or
a panic propagated out of the setup callback. -/
inductive RunResult where
  | ok : RunResult
  | err : String → RunResult
  | panicked : String → RunResult
  deriving DecidableEq

/-- The framework event loop, whose outcome `loopError` is supplied by
the environment. -/
def runEventLoop (loopError : Option String) : RunResult × List Event :=
  match loopError with
  | none => (RunResult.ok, [Event.eventLoopRun])
  | some e => (RunResult.err e, [Event.eventLoopRun])

/-- builder.run(context): invokes the setup callback (if any) on the
application handle, then, only if setup returned Ok, runs the event
loop.  A panic in setup propagates; an Err from setup is returned as
the run result without starting the event loop. -/
def Builder.run (b : Builder) (app : App) (loopError : Option String) :
    RunResult × List Event :=
  match b.setupCallback with
  | none => runEventLoop loopError
  | some f =>
      let s := f app
      match s.1 with
      | ClosureResult.panicked msg => (RunResult.panicked msg, s.2)
      | ClosureResult.returned (SetupResult.err e) => (RunResult.err e, s.2)
      | ClosureResult.returned SetupResult.ok =>
          let l := runEventLoop loopError
          (l.1, s.2 ++ l.2)

/-- The expect message on the run result in main.rs. -/
def expectMsg : String := "error while running tauri application"

/-- How the whole program ends: normal completion or a panic. -/
inductive MainOutcome where
  | completed : MainOutcome
  | panicked : String → MainOutcome
  deriving DecidableEq

/-- main from main.rs:
`tauri::Builder::default().setup(|app| { ... }).run(ctx).expect(...)`.
Parameters: `app` is the application handle the framework passes to
setup, `fresh` the identity of the Lynx instance Lynx::new constructs,
`loopError` the event loop's outcome. -/
def main (app : App) (fresh : Nat) (loopError : Option String) :
    MainOutcome × List Event :=
  let b0 := Builder.default
  let b1 := b0.1.setup (setupClosure fresh)
  let r := b1.1.run app loopError
  let trace := b0.2 ++ b1.2 ++ r.2
  match r.1 with
  | RunResult.ok => (MainOutcome.completed, trace)
  | RunResult.err _ => (MainOutcome.panicked expectMsg, trace)
  | RunResult.panicked msg => (MainOutcome.panicked msg, trace)

/-- The lynxRun events of a trace. -/
def lynxRunEvents (tr : List Event) : List Event :=
  tr.filter (fun e => match e with | Event.lynxRun _ _ => true | _ => false)

/-- How many Lynx instances a trace constructs. -/
def lynxNewCount (tr : List Event) : Nat :=
  tr.countP (fun e => match e with | Event.lynxNew _ => true | _ => false)

/-- Whether an event is one of the three external calls the repository
itself makes (get_window, Lynx::new, lynx.run). -/
def isExternalCall : Event → Bool
  | Event.getWindow _ _ => true
  | Event.lynxNew _ => true
  | Event.lynxRun _ _ => true
  | _ => false

/-- A concrete application handle that has a window named "main". -/
def appWithMain : App :=
  ⟨fun name => if name = "main" then some ⟨0⟩ else none⟩

/-- A concrete application handle with no windows at all. -/
def appNoMain : App :=
  ⟨fun _ => none⟩

theorem main_eq_none (app : App) (fresh : Nat) (loopError : Option String)
    (h : app.windows "main" = none) :
    main app fresh loopError =
      (MainOutcome.panicked unwrapPanicMsg,
       [Event.builderDefault, Event.setupRegistered, Event.getWindow "main" none]) := by
  simp [main, Builder.default, Builder.setup, Builder.run, setupClosure, App.get_window, h]

theorem main_eq_some (app : App) (fresh : Nat) (loopError : Option String) (w : Window)
    (h : app.windows "main" = some w) :
    main app fresh loopError =
      ((match loopError with
        | none => MainOutcome.completed
        | some _ => MainOutcome.panicked expectMsg),
       [Event.builderDefault, Event.setupRegistered, Event.getWindow "main" (some w),
        Event.lynxNew fresh, Event.lynxRun fresh w, Event.eventLoopRun]) := by
  cases loopError <;>
    simp [main, Builder.default, Builder.setup, Builder.run, runEventLoop, setupClosure,
      App.get_window, initialize_lynx, Lynx.new, Lynx.run, h]

/-- Claim C1, counterexample: the claim that the named-window lookup is
the only abort-on-failure point fails on the code.  With the "main"
window present and an event loop error, the program still panics — via
the expect on the run result, not via the lookup. -/
theorem c1_counterexample :
    ¬ (∀ (app : App) (fresh : Nat) (loopError : Option String) (msg : String),
        (main app fresh loopError).1 = MainOutcome.panicked msg →
        app.windows "main" = none) := by
  intro h
  have hc : (main appWithMain 0 (some "boom")).1 = MainOutcome.panicked expectMsg := by
    decide
  have := h appWithMain 0 (some "boom") expectMsg hc
  exact absurd this (by decide)

/-- Claim C1, amended: the program has exactly two unconditional
abort-on-failure points — the named-window lookup at setup time (unwrap)
and the expect on the event-loop run result.  Every panic of the program
is one of the two. -/
theorem c1_abort_points (app : App) (fresh : Nat) (loopError : Option String)
    (msg : String)
    (h : (main app fresh loopError).1 = MainOutcome.panicked msg) :
    (app.windows "main" = none ∧ msg = unwrapPanicMsg) ∨
    ((app.windows "main").isSome = true ∧ loopError.isSome = true ∧ msg = expectMsg) := by
  rcases hm : app.windows "main" with _ | w
  · rw [main_eq_none app fresh loopError hm] at h
    exact Or.inl ⟨rfl, by simpa using h.symm⟩
  · rw [main_eq_some app fresh loopError w hm] at h
    cases loopError with
    | none => simp at h
    | some e =>
        refine Or.inr ⟨by simp, by simp, ?_⟩
        simpa using h.symm

/-- Witness for c1_abort_points at a concrete input with no "main"
window: the panic is the unwrap abort. -/
theorem c1_abort_points_witness :
    (appNoMain.windows "main" = none ∧ unwrapPanicMsg = unwrapPanicMsg) ∨
    ((appNoMain.windows "main").isSome = true ∧
      (none : Option String).isSome = true ∧ unwrapPanicMsg = expectMsg) :=
  c1_abort_points appNoMain 0 none unwrapPanicMsg (by decide)

/-- Claim C2: if the lookup of the window named "main" returns no
window, the setup closure panics immediately — its whole trace is the
single failed lookup, with no retry and no alternate path — and if the
lookup succeeds the closure returns Ok with no error branch. -/
theorem c2_setup_unwrap (fresh : Nat) (app : App) :
    (app.windows "main" = none →
      setupClosure fresh app =
        (ClosureResult.panicked unwrapPanicMsg, [Event.getWindow "main" none])) ∧
    (∀ w, app.windows "main" = some w →
      (setupClosure fresh app).1 = ClosureResult.returned SetupResult.ok) := by
  constructor
  · intro h
    simp [setupClosure, App.get_window, h]
  · intro w h
    simp [setupClosure, App.get_window, h]

/-- Witness for c2_setup_unwrap: the panic branch at an app with no
windows and the Ok branch at an app with a "main" window. -/
theorem c2_setup_unwrap_witness :
    setupClosure 0 appNoMain =
      (ClosureResult.panicked unwrapPanicMsg, [Event.getWindow "main" none]) ∧
    (setupClosure 0 appWithMain).1 = ClosureResult.returned SetupResult.ok :=
  ⟨(c2_setup_unwrap 0 appNoMain).1 (by decide),
   (c2_setup_unwrap 0 appWithMain).2 ⟨0⟩ (by decide)⟩

/-- Claim C3: initialize_lynx constructs exactly one Lynx instance and
immediately invokes that very instance's run method exactly once with
the window it received; it does nothing else and returns unit. -/
theorem c3_initialize_lynx (fresh : Nat) (w : Window) :
    initialize_lynx fresh w = ((), [Event.lynxNew fresh, Event.lynxRun fresh w]) := by
  rfl

/-- Claim C4: every execution follows exactly this order: builder
construction, registration of the single setup closure, then inside
setup the "main" lookup; when the lookup succeeds, the Lynx calls with
the looked-up window, and only then the event loop; when it fails,
nothing after the lookup. -/
theorem c4_control_flow (app : App) (fresh : Nat) (loopError : Option String) :
    (main app fresh loopError).2 =
      match app.windows "main" with
      | none => [Event.builderDefault, Event.setupRegistered, Event.getWindow "main" none]
      | some w =>
          [Event.builderDefault, Event.setupRegistered, Event.getWindow "main" (some w),
           Event.lynxNew fresh, Event.lynxRun fresh w, Event.eventLoopRun] := by
  rcases hm : app.windows "main" with _ | w
  · rw [main_eq_none app fresh loopError hm]
  · rw [main_eq_some app fresh loopError w hm]

/-- Claim C5: whenever the "main" lookup succeeds, lynx.run is invoked,
exactly once, and with exactly the window the lookup returned. -/
theorem c5_lynx_run_invoked (app : App) (fresh : Nat) (loopError : Option String)
    (w : Window) (h : app.windows "main" = some w) :
    lynxRunEvents (main app fresh loopError).2 = [Event.lynxRun fresh w] := by
  rw [main_eq_some app fresh loopError w h]
  rfl

/-- Witness for c5_lynx_run_invoked at a concrete app holding a "main"
window. -/
theorem c5_lynx_run_invoked_witness :
    lynxRunEvents (main appWithMain 0 none).2 = [Event.lynxRun 0 ⟨0⟩] :=
  c5_lynx_run_invoked appWithMain 0 none ⟨0⟩ (by decide)

/-- Claim C6: any window handed to lynx.run was obtained solely by the
name-based lookup of "main" on the application handle: it is the very
window under that name, and the trace records the lookup that produced
it. -/
theorem c6_window_from_lookup (app : App) (fresh : Nat) (loopError : Option String)
    (i : Nat) (w : Window)
    (h : Event.lynxRun i w ∈ (main app fresh loopError).2) :
    app.windows "main" = some w ∧
    Event.getWindow "main" (some w) ∈ (main app fresh loopError).2 := by
  rcases hm : app.windows "main" with _ | w0
  · rw [main_eq_none app fresh loopError hm] at h
    simp at h
  · rw [main_eq_some app fresh loopError w0 hm] at h ⊢
    simp at h
    rcases h with ⟨_, hw⟩
    subst hw
    exact ⟨rfl, by simp⟩

/-- Witness for c6_window_from_lookup at a concrete run event of a
concrete execution. -/
theorem c6_window_from_lookup_witness :
    appWithMain.windows "main" = some ⟨0⟩ ∧
    Event.getWindow "main" (some ⟨0⟩) ∈ (main appWithMain 0 none).2 :=
  c6_window_from_lookup appWithMain 0 none 0 ⟨0⟩ (by decide)

/-- Claim C7: every observable effect of the setup closure and of
initialize_lynx is one of the external calls get_window, Lynx::new or
lynx.run — the repository creates and mutates no state of its own. -/
theorem c7_effects_external (fresh : Nat) (app : App) (window : Window) :
    (setupClosure fresh app).2.all isExternalCall = true ∧
    (initialize_lynx fresh window).2.all isExternalCall = true := by
  constructor
  · rcases hm : app.windows "main" with _ | w <;>
      simp [setupClosure, App.get_window, initialize_lynx, Lynx.new, Lynx.run,
        isExternalCall, hm]
  · simp [initialize_lynx, Lynx.new, Lynx.run, isExternalCall]

/-- Claim C8: the setup closure never returns an error value: whenever
it returns at all, the returned value is Ok. -/
theorem c8_setup_returns_ok (fresh : Nat) (app : App) (r : SetupResult)
    (h : (setupClosure fresh app).1 = ClosureResult.returned r) :
    r = SetupResult.ok := by
  rcases hm : app.windows "main" with _ | w <;>
    simp [setupClosure, App.get_window, hm] at h
  · exact h.symm

/-- Witness for c8_setup_returns_ok at a concrete app with a "main"
window. -/
theorem c8_setup_returns_ok_witness :
    (setupClosure 0 appWithMain).1 = ClosureResult.returned SetupResult.ok ∧
    SetupResult.ok = SetupResult.ok :=
  ⟨by decide, c8_setup_returns_ok 0 appWithMain SetupResult.ok (by decide)⟩

/-- Claim C9: if the event loop's run method returns an error, the
program aborts with the message "error while running tauri application"
— a second abort point, with a message distinct from the lookup unwrap. -/
theorem c9_run_error_abort (app : App) (fresh : Nat) (e : String) (w : Window)
    (h : app.windows "main" = some w) :
    (main app fresh (some e)).1 =
      MainOutcome.panicked "error while running tauri application" ∧
    expectMsg ≠ unwrapPanicMsg := by
  rw [main_eq_some app fresh (some e) w h]
  exact ⟨rfl, by decide⟩

/-- Witness for c9_run_error_abort at a concrete app with a "main"
window and a concrete loop error. -/
theorem c9_run_error_abort_witness :
    (main appWithMain 0 (some "boom")).1 =
      MainOutcome.panicked "error while running tauri application" ∧
    expectMsg ≠ unwrapPanicMsg :=
  c9_run_error_abort appWithMain 0 "boom" ⟨0⟩ (by decide)

/-- Claim C10: lynx.run is never invoked with a window other than the
one registered under "main", and one invocation of the setup closure
constructs at most one Lynx instance. -/
theorem c10_instance_discipline (app : App) (fresh : Nat) (i : Nat) (w : Window)
    (h : Event.lynxRun i w ∈ (setupClosure fresh app).2) :
    app.windows "main" = some w ∧
    lynxNewCount (setupClosure fresh app).2 ≤ 1 := by
  rcases hm : app.windows "main" with _ | w0
  · simp [setupClosure, App.get_window, hm] at h
  · simp [setupClosure, App.get_window, initialize_lynx, Lynx.new, Lynx.run, hm] at h
    rcases h with ⟨_, hw⟩
    subst hw
    refine ⟨rfl, ?_⟩
    simp [setupClosure, App.get_window, initialize_lynx, Lynx.new, Lynx.run, hm,
      lynxNewCount, List.countP, List.countP.go]

/-- Witness for c10_instance_discipline at a concrete run event of a
concrete setup invocation. -/
theorem c10_instance_discipline_witness :
    appWithMain.windows "main" = some ⟨0⟩ ∧
    lynxNewCount (setupClosure 0 appWithMain).2 ≤ 1 :=
  c10_instance_discipline appWithMain 0 0 ⟨0⟩ (by decide)

end TauriApp
